import Mathlib

set_option maxRecDepth 8000

/-!
Shallow embedding of the GEMINI-Scanner pipeline (src/main.py).

Strings are modelled as `List Char`.  The external world (screen capture,
transport encoding, remote analyzer) is an `Oracle` record; a pipeline run
is a pure function from the oracle to the ordered list of observable
side effects (notifications, clipboard writes, sleeps, analyzer calls,
response-log appends) together with how the invocation ended (normal
return with a Succeeded/Failed outcome, or an uncaught exception).
-/

abbrev Chars := List Char

/-- Python whitespace characters recognised by `str.strip()` (ASCII subset). -/
def pySpace (c : Char) : Bool :=
  c = ' ' || c = '\t' || c = '\n' || c = '\r' || c = '\x0b' || c = '\x0c'

/-- Python `s.strip()` on a character list. -/
def pyStrip (s : Chars) : Chars :=
  ((s.dropWhile pySpace).reverse.dropWhile pySpace).reverse

/-- Fuel-driven body of the chunking loop of `notify_toast` (src/main.py
lines 50-53): `while text: parts.append(text[:300]); text = text[300:]`.
Each iteration consumes one unit of fuel and at least one character, so
`text.length` units of fuel always suffice (`chunkGo_fuel_irrel`,
`chunkLoop_cons` below recover the defining equation of the loop itself). -/
def chunkGo (fuel : Nat) (text : Chars) : List Chars :=
  match fuel, text with
  | 0, _ => []
  | _, [] => []
  | f + 1, c :: rest =>
    (c :: rest).take 300 :: chunkGo f ((c :: rest).drop 300)

/-- The chunking loop of `notify_toast`, run to completion. -/
def chunkLoop (text : Chars) : List Chars :=
  chunkGo text.length text

/-- The parts computed by `notify_toast` for a message (src/main.py lines
48-53): the message is first stripped (`text = message.strip()`), then cut
into chunks of at most 300 characters. -/
def notify_toast_parts (message : Chars) : List Chars :=
  chunkLoop (pyStrip message)

/-- Python substring containment, as in `"503" in err_msg`. -/
def isSubstringOf (needle hay : Chars) : Bool :=
  hay.tails.any (fun t => needle.isPrefixOf t)

/-- The retry classification of `capture_et_analyse` (src/main.py line 127):
checking whether the error text contains "503" or "UNAVAILABLE". -/
def isRetryable (e : Chars) : Bool :=
  isSubstringOf "503".toList e || isSubstringOf "UNAVAILABLE".toList e

/-- Observable side effects of one pipeline invocation, in order. -/
inductive Event where
  | notify (title msg : Chars)
  | copy (s : Chars)
  | sleep (d : Nat)
  | analyzeCall (attempt : Nat)
  | respLog (s : Chars)
deriving DecidableEq, Repr

/-- External world consulted by one pipeline invocation: the screen capture,
the in-memory PNG encode step, and the remote analyzer (per 1-based
attempt number).  Failures carry the exception text. -/
structure Oracle where
  capture : Except Chars Unit
  encode : Except Chars Unit
  analyze : Nat → Except Chars Chars

/-- How `capture_et_analyse` ended: Succeeded / Failed as in the spec. -/
inductive Outcome where
  | succeeded
  | failed
deriving DecidableEq, Repr

/-- Normal return (with outcome) or an uncaught exception escaping the
function. -/
inductive RunResult where
  | returned (st : Outcome)
  | raised (e : Chars)
deriving DecidableEq, Repr

/-- How the `for attempt in range(1, max_retries+1)` loop ended. -/
inductive LoopExit where
  | success (ans : Chars)
  | permanent
  | exhausted
deriving DecidableEq, Repr

def nmGS : Chars := "Gemini Scanner".toList
def msgAnalyse : Chars := "Analyse en cours (capture auto)...".toList
def nmErrCapture : Chars := "Erreur capture".toList
def ttErrGemini : Chars := "Erreur Gemini".toList
def ttErr : Chars := "Erreur".toList
def msgNoAnswer : Chars := "Aucune réponse obtenue de Gemini.".toList
def msgCopied : Chars := "Réponse copiée dans le presse-papiers.".toList

/-- `f"Serveur occupé, retry {attempt}/{max_retries}..."` with max_retries=3. -/
def retryMsg (attempt : Nat) : Chars :=
  "Serveur occupé, retry ".toList ++ (Nat.repr attempt).toList ++ "/3...".toList

/-- The retry loop of `capture_et_analyse` (src/main.py lines 114-133).
`attempt` is the 1-based attempt number, `remaining` how many iterations
the `range` still yields, `delay` the current backoff.  On success the
answer is stripped and copied to the clipboard inside the loop; a
retryable error notifies, sleeps `delay` and doubles it; any other error
notifies with the raw text and returns from the function. -/
def retryLoop (o : Oracle) (attempt remaining delay : Nat) : List Event × LoopExit :=
  match remaining with
  | 0 => ([], .exhausted)
  | r + 1 =>
    match o.analyze attempt with
    | .ok t =>
      ([.analyzeCall attempt, .copy (pyStrip t)], .success (pyStrip t))
    | .error e =>
      if isRetryable e then
        let rest := retryLoop o (attempt + 1) r (delay * 2)
        (.analyzeCall attempt :: .notify nmGS (retryMsg attempt) ::
          .sleep delay :: rest.1, rest.2)
      else
        ([.analyzeCall attempt, .notify ttErrGemini e], .permanent)

/-- `capture_et_analyse` (src/main.py lines 92-143).  The initial
notification always fires; a capture error notifies and returns; the
encode step is outside every `try`, so its failure escapes as an uncaught
exception; then the retry loop runs with `max_retries = 3`, `delay = 2`.
After the loop, `if not answer` (None or empty) notifies failure,
otherwise the answer is copied again and the two success notifications
fire around a 2-unit sleep. -/
def capture_et_analyse (o : Oracle) : List Event × RunResult :=
  let ev0 : List Event := [.notify nmGS msgAnalyse]
  match o.capture with
  | .error e => (ev0 ++ [.notify nmErrCapture e], .returned .failed)
  | .ok _ =>
    match o.encode with
    | .error e => (ev0, .raised e)
    | .ok _ =>
      let res := retryLoop o 1 3 2
      match res.2 with
      | .permanent => (ev0 ++ res.1, .returned .failed)
      | .exhausted => (ev0 ++ res.1 ++ [.notify ttErr msgNoAnswer], .returned .failed)
      | .success a =>
        if a = [] then
          (ev0 ++ res.1 ++ [.notify ttErr msgNoAnswer], .returned .failed)
        else
          (ev0 ++ res.1 ++
            [.copy a, .notify nmGS a, .sleep 2, .notify nmGS msgCopied],
            .returned .succeeded)

/-- `log_gemini_response` (src/main.py lines 153-159): appends one
timestamped block to gemini_responses.log.  Modelled as the response-log
append effect it performs; note that nothing in `capture_et_analyse`
invokes it. -/
def log_gemini_response (response : Chars) : List Event :=
  [.respLog response]

def traceOf (o : Oracle) : List Event := (capture_et_analyse o).1

def resultOf (o : Oracle) : RunResult := (capture_et_analyse o).2

/-- Number of analyzer calls in a trace. -/
def attemptCount (tr : List Event) : Nat :=
  (tr.filter fun e => match e with | .analyzeCall _ => true | _ => false).length

/-- Clipboard writes in a trace, in order. -/
def copyWrites (tr : List Event) : List Chars :=
  tr.filterMap fun e => match e with | .copy s => some s | _ => none

/-- Sleep durations in a trace, in order. -/
def sleepsOf (tr : List Event) : List Nat :=
  tr.filterMap fun e => match e with | .sleep d => some d | _ => none

/-- Number of response-log appends in a trace. -/
def respLogCount (tr : List Event) : Nat :=
  (tr.filter fun e => match e with | .respLog _ => true | _ => false).length

/-- Oracle for runs where capture and encode succeed and the analyzer
fails with `errs[i]` on attempt `i+1` and returns `t` on every later
attempt. -/
def seqOracle (errs : List Chars) (t : Chars) : Oracle where
  capture := .ok ()
  encode := .ok ()
  analyze := fun n =>
    match errs.get? (n - 1) with
    | some e => .error e
    | none => .ok t

/-! ## Chunking lemmas (Notifier) -/

theorem chunkGo_fuel_irrel :
    ∀ (f f' : Nat) (text : Chars), text.length ≤ f → text.length ≤ f' →
      chunkGo f text = chunkGo f' text := by
  intro f
  induction f with
  | zero =>
    intro f' text hf _
    have htext : text = [] := List.eq_nil_of_length_eq_zero (Nat.le_zero.mp hf)
    subst htext
    cases f' <;> simp [chunkGo]
  | succ f ih =>
    intro f' text hf hf'
    cases text with
    | nil => cases f' <;> simp [chunkGo]
    | cons c rest =>
      cases f' with
      | zero => simp at hf'
      | succ f'' =>
        simp only [chunkGo]
        congr 1
        apply ih
        · simp only [List.length_drop, List.length_cons]
          simp only [List.length_cons] at hf
          omega
        · simp only [List.length_drop, List.length_cons]
          simp only [List.length_cons] at hf'
          omega

theorem chunkGo_join :
    ∀ (f : Nat) (text : Chars), text.length ≤ f → (chunkGo f text).flatten = text := by
  intro f
  induction f with
  | zero =>
    intro text hf
    have htext : text = [] := List.eq_nil_of_length_eq_zero (Nat.le_zero.mp hf)
    subst htext
    simp [chunkGo]
  | succ f ih =>
    intro text hf
    cases text with
    | nil => simp [chunkGo]
    | cons c rest =>
      simp only [chunkGo, List.flatten_cons]
      rw [ih _ (by
        simp only [List.length_drop, List.length_cons]
        simp only [List.length_cons] at hf
        omega)]
      exact List.take_append_drop 300 (c :: rest)

theorem chunkGo_count :
    ∀ (f : Nat) (text : Chars), text.length ≤ f →
      (chunkGo f text).length = (text.length + 299) / 300 := by
  intro f
  induction f with
  | zero =>
    intro text hf
    have htext : text = [] := List.eq_nil_of_length_eq_zero (Nat.le_zero.mp hf)
    subst htext
    simp [chunkGo]
  | succ f ih =>
    intro text hf
    cases text with
    | nil => simp [chunkGo]
    | cons c rest =>
      simp only [chunkGo, List.length_cons]
      rw [ih _ (by
        simp only [List.length_drop, List.length_cons]
        simp only [List.length_cons] at hf
        omega)]
      simp only [List.length_drop, List.length_cons]
      omega

theorem chunkGo_le :
    ∀ (f : Nat) (text : Chars), ∀ c ∈ chunkGo f text, c.length ≤ 300 := by
  intro f
  induction f with
  | zero => intro text c hc; simp [chunkGo] at hc
  | succ f ih =>
    intro text c hc
    cases text with
    | nil => simp [chunkGo] at hc
    | cons a rest =>
      simp only [chunkGo, List.mem_cons] at hc
      rcases hc with rfl | hc
      · simp only [List.length_take]
        omega
      · exact ih _ c hc

/-- The fuel-driven `chunkLoop` satisfies the defining equation of the
source while loop on non-empty text. -/
theorem chunkLoop_cons (text : Chars) (h : text ≠ []) :
    chunkLoop text = text.take 300 :: chunkLoop (text.drop 300) := by
  cases text with
  | nil => exact absurd rfl h
  | cons c rest =>
    simp only [chunkLoop, List.length_cons, chunkGo]
    congr 1
    apply chunkGo_fuel_irrel
    · simp only [List.length_drop, List.length_cons]
      omega
    · exact le_refl _

/-- C2 (amended): the Notifier first strips the message, then splits the
stripped text into chunks of at most 300 characters; the chunk count is
ceil(len(stripped)/300), and concatenating the chunks in order yields
exactly the stripped message. -/
theorem notify_toast_chunking (msg : Chars) (_h : 300 < msg.length) :
    (∀ c ∈ notify_toast_parts msg, c.length ≤ 300) ∧
    (notify_toast_parts msg).length = ((pyStrip msg).length + 299) / 300 ∧
    (notify_toast_parts msg).flatten = pyStrip msg := by
  unfold notify_toast_parts chunkLoop
  exact ⟨fun c hc => chunkGo_le _ _ c hc, chunkGo_count _ _ (le_refl _),
    chunkGo_join _ _ (le_refl _)⟩

/-- C2 counterexample: for the 301-character message made of one leading
space and 300 letters, `notify_toast` produces a single chunk (not
ceil(301/300) = 2), and the concatenation of the chunks is the stripped
message, not the original one. -/
theorem notify_toast_chunking_cex :
    300 < (' ' :: List.replicate 300 'a').length ∧
    (notify_toast_parts (' ' :: List.replicate 300 'a')).length = 1 ∧
    ((' ' :: List.replicate 300 'a').length + 299) / 300 = 2 ∧
    (notify_toast_parts (' ' :: List.replicate 300 'a')).flatten ≠
      ' ' :: List.replicate 300 'a' := by
  decide

/-- Witness for `notify_toast_chunking` at the 301-letter message. -/
theorem notify_toast_chunking_witness :
    300 < (List.replicate 301 'a' : Chars).length ∧
    (notify_toast_parts (List.replicate 301 'a')).flatten =
      pyStrip (List.replicate 301 'a') :=
  ⟨by decide, (notify_toast_chunking (List.replicate 301 'a') (by decide)).2.2⟩

/-! ## Pipeline scenario theorems -/

/-- C8: when the screen capture raises, the run notifies the initial
message and the capture error, returns Failed, performs no analyzer call
and no clipboard write (capture is consulted exactly once by
construction, so it is never retried). -/
theorem capture_failure_aborts (e : Chars) (enc : Except Chars Unit)
    (an : Nat → Except Chars Chars) :
    capture_et_analyse ⟨.error e, enc, an⟩ =
      ([.notify nmGS msgAnalyse, .notify nmErrCapture e], .returned .failed) ∧
    attemptCount (traceOf ⟨.error e, enc, an⟩) = 0 ∧
    copyWrites (traceOf ⟨.error e, enc, an⟩) = [] :=
  ⟨rfl, rfl, rfl⟩

/-- C7 (amended): a failure of the PNG encode step is not handled by
`capture_et_analyse` — the exception escapes the function uncaught, with
no capture-style error notification and no log entry from the pipeline;
only the initial notification has fired. -/
theorem encode_failure_uncaught (e : Chars) (an : Nat → Except Chars Chars) :
    capture_et_analyse ⟨.ok (), .error e, an⟩ =
      ([.notify nmGS msgAnalyse], .raised e) :=
  rfl

/-- C7 counterexample: with a concrete encode failure "boom", the
invocation ends in an uncaught exception rather than a handled Failed
return, and the trace holds no error notification (unlike a capture
failure, which notifies with title "Erreur capture"). -/
theorem encode_failure_cex :
    capture_et_analyse ⟨.ok (), .error "boom".toList, fun _ => .ok "42".toList⟩ =
      ([.notify nmGS msgAnalyse], .raised "boom".toList) ∧
    Event.notify nmErrCapture "boom".toList ∉
      traceOf ⟨.ok (), .error "boom".toList, fun _ => .ok "42".toList⟩ ∧
    resultOf ⟨.ok (), .error "boom".toList, fun _ => .ok "42".toList⟩ ≠
      .returned .failed := by
  decide

/-- C5: a non-retryable analyzer error on the first attempt gives exactly
one analyzer call, the single raw-text error notification, no clipboard
write, and a Failed return. -/
theorem permanent_error_single_attempt (e t : Chars) (hr : isRetryable e = false) :
    capture_et_analyse (seqOracle [e] t) =
      ([.notify nmGS msgAnalyse, .analyzeCall 1, .notify ttErrGemini e],
        .returned .failed) ∧
    attemptCount (traceOf (seqOracle [e] t)) = 1 ∧
    copyWrites (traceOf (seqOracle [e] t)) = [] := by
  have key : capture_et_analyse (seqOracle [e] t) =
      ([.notify nmGS msgAnalyse, .analyzeCall 1, .notify ttErrGemini e],
        .returned .failed) := by
    simp [capture_et_analyse, seqOracle, retryLoop, hr]
  refine ⟨key, ?_, ?_⟩ <;> simp [traceOf, key, attemptCount, copyWrites]

/-- Witness for `permanent_error_single_attempt` at "invalid API key". -/
theorem permanent_error_single_attempt_witness :
    isRetryable "invalid API key".toList = false ∧
    capture_et_analyse (seqOracle ["invalid API key".toList] "x".toList) =
      ([.notify nmGS msgAnalyse, .analyzeCall 1,
        .notify ttErrGemini "invalid API key".toList], .returned .failed) :=
  ⟨by decide,
    (permanent_error_single_attempt "invalid API key".toList "x".toList
      (by decide)).1⟩

/-- C4: when all three attempts fail with retryable errors, the run makes
exactly 3 analyzer calls, sleeps 2, 4 and 8 units, writes nothing to the
clipboard, notifies that no answer was obtained, and returns Failed. -/
theorem all_attempts_retryable_failed (e1 e2 e3 t : Chars)
    (h1 : isRetryable e1 = true) (h2 : isRetryable e2 = true)
    (h3 : isRetryable e3 = true) :
    capture_et_analyse (seqOracle [e1, e2, e3] t) =
      ([.notify nmGS msgAnalyse,
        .analyzeCall 1, .notify nmGS (retryMsg 1), .sleep 2,
        .analyzeCall 2, .notify nmGS (retryMsg 2), .sleep 4,
        .analyzeCall 3, .notify nmGS (retryMsg 3), .sleep 8,
        .notify ttErr msgNoAnswer], .returned .failed) ∧
    attemptCount (traceOf (seqOracle [e1, e2, e3] t)) = 3 ∧
    copyWrites (traceOf (seqOracle [e1, e2, e3] t)) = [] := by
  have key : capture_et_analyse (seqOracle [e1, e2, e3] t) =
      ([.notify nmGS msgAnalyse,
        .analyzeCall 1, .notify nmGS (retryMsg 1), .sleep 2,
        .analyzeCall 2, .notify nmGS (retryMsg 2), .sleep 4,
        .analyzeCall 3, .notify nmGS (retryMsg 3), .sleep 8,
        .notify ttErr msgNoAnswer], .returned .failed) := by
    simp [capture_et_analyse, seqOracle, retryLoop, h1, h2, h3]
  refine ⟨key, ?_, ?_⟩ <;> simp [traceOf, key, attemptCount, copyWrites]

/-- Witness for `all_attempts_retryable_failed` with three 503 errors. -/
theorem all_attempts_retryable_failed_witness :
    isRetryable "503".toList = true ∧
    attemptCount (traceOf (seqOracle
      ["503".toList, "503".toList, "503".toList] "42".toList)) = 3 :=
  ⟨by decide,
    (all_attempts_retryable_failed "503".toList "503".toList "503".toList
      "42".toList (by decide) (by decide) (by decide)).2.1⟩

/-- C3 (amended): for at most 2 retryable errors followed by a success
whose stripped text is non-empty, the run returns Succeeded, the
clipboard is written exactly twice with the final answer (once inside the
loop, once after it, so its final state is the answer), and the trace
ends with the answer notification, the fixed 2-unit sleep, and the
copied-to-clipboard notification. -/
theorem retryable_then_success (errs : List Chars) (t : Chars)
    (hk : errs.length ≤ 2) (hr : ∀ e ∈ errs, isRetryable e = true)
    (ht : pyStrip t ≠ []) :
    resultOf (seqOracle errs t) = .returned .succeeded ∧
    copyWrites (traceOf (seqOracle errs t)) = [pyStrip t, pyStrip t] ∧
    ∃ pre, traceOf (seqOracle errs t) =
      pre ++ [.copy (pyStrip t), .notify nmGS (pyStrip t), .sleep 2,
        .notify nmGS msgCopied] := by
  rcases errs with _ | ⟨a, _ | ⟨b, _ | ⟨c, rest⟩⟩⟩
  · have key : capture_et_analyse (seqOracle [] t) =
        ([.notify nmGS msgAnalyse, .analyzeCall 1, .copy (pyStrip t),
          .copy (pyStrip t), .notify nmGS (pyStrip t), .sleep 2,
          .notify nmGS msgCopied], .returned .succeeded) := by
      simp [capture_et_analyse, seqOracle, retryLoop, ht]
    refine ⟨?_, ?_,
        ⟨[.notify nmGS msgAnalyse, .analyzeCall 1, .copy (pyStrip t)], ?_⟩⟩ <;>
      simp [resultOf, traceOf, key, copyWrites]
  · have ha := hr a (by simp)
    have key : capture_et_analyse (seqOracle [a] t) =
        ([.notify nmGS msgAnalyse,
          .analyzeCall 1, .notify nmGS (retryMsg 1), .sleep 2,
          .analyzeCall 2, .copy (pyStrip t),
          .copy (pyStrip t), .notify nmGS (pyStrip t), .sleep 2,
          .notify nmGS msgCopied], .returned .succeeded) := by
      simp [capture_et_analyse, seqOracle, retryLoop, ha, ht]
    refine ⟨?_, ?_,
        ⟨[.notify nmGS msgAnalyse, .analyzeCall 1, .notify nmGS (retryMsg 1),
          .sleep 2, .analyzeCall 2, .copy (pyStrip t)], ?_⟩⟩ <;>
      simp [resultOf, traceOf, key, copyWrites]
  · have ha := hr a (by simp)
    have hb := hr b (by simp)
    have key : capture_et_analyse (seqOracle [a, b] t) =
        ([.notify nmGS msgAnalyse,
          .analyzeCall 1, .notify nmGS (retryMsg 1), .sleep 2,
          .analyzeCall 2, .notify nmGS (retryMsg 2), .sleep 4,
          .analyzeCall 3, .copy (pyStrip t),
          .copy (pyStrip t), .notify nmGS (pyStrip t), .sleep 2,
          .notify nmGS msgCopied], .returned .succeeded) := by
      simp [capture_et_analyse, seqOracle, retryLoop, ha, hb, ht]
    refine ⟨?_, ?_,
        ⟨[.notify nmGS msgAnalyse, .analyzeCall 1, .notify nmGS (retryMsg 1),
          .sleep 2, .analyzeCall 2, .notify nmGS (retryMsg 2), .sleep 4,
          .analyzeCall 3, .copy (pyStrip t)], ?_⟩⟩ <;>
      simp [resultOf, traceOf, key, copyWrites]
  · simp only [List.length_cons] at hk
    omega

/-- C3 counterexample: with three retryable 503 errors and an analyzer
that would answer "42" on the fourth attempt, the pipeline stops after 3
attempts and returns Failed, never reaching Succeeded. -/
theorem retryable_then_success_cex :
    isRetryable "503".toList = true ∧
    (seqOracle ["503".toList, "503".toList, "503".toList] "42".toList).analyze 4 =
      .ok "42".toList ∧
    attemptCount (traceOf (seqOracle
      ["503".toList, "503".toList, "503".toList] "42".toList)) = 3 ∧
    resultOf (seqOracle ["503".toList, "503".toList, "503".toList] "42".toList) ≠
      .returned .succeeded :=
  ⟨by decide, rfl, by decide, by decide⟩

/-- Witness for `retryable_then_success` with two 503 errors then "42". -/
theorem retryable_then_success_witness :
    pyStrip "42".toList ≠ [] ∧
    resultOf (seqOracle ["503".toList, "503".toList] "42".toList) =
      .returned .succeeded :=
  ⟨by decide,
    (retryable_then_success ["503".toList, "503".toList] "42".toList
      (by decide) (by decide) (by decide)).1⟩

/-- C6: the backoff starts at 2 and doubles after every retryable
failure: with two retryable errors then a success the first two sleeps
are 2 then 4 and the user is notified "retry 1/3" and "retry 2/3"; when
all three attempts fail the sleeps are exactly 2, 4, 8. -/
theorem backoff_schedule (e1 e2 e3 t : Chars)
    (h1 : isRetryable e1 = true) (h2 : isRetryable e2 = true)
    (h3 : isRetryable e3 = true) :
    (sleepsOf (traceOf (seqOracle [e1, e2] t))).take 2 = [2, 4] ∧
    Event.notify nmGS (retryMsg 1) ∈ traceOf (seqOracle [e1, e2] t) ∧
    Event.notify nmGS (retryMsg 2) ∈ traceOf (seqOracle [e1, e2] t) ∧
    retryMsg 1 = "Serveur occupé, retry 1/3...".toList ∧
    retryMsg 2 = "Serveur occupé, retry 2/3...".toList ∧
    sleepsOf (traceOf (seqOracle [e1, e2, e3] t)) = [2, 4, 8] := by
  have key3 : sleepsOf (traceOf (seqOracle [e1, e2, e3] t)) = [2, 4, 8] := by
    simp [sleepsOf, traceOf, capture_et_analyse, seqOracle, retryLoop, h1, h2, h3]
  by_cases hts : pyStrip t = []
  · have key : traceOf (seqOracle [e1, e2] t) =
        [.notify nmGS msgAnalyse,
         .analyzeCall 1, .notify nmGS (retryMsg 1), .sleep 2,
         .analyzeCall 2, .notify nmGS (retryMsg 2), .sleep 4,
         .analyzeCall 3, .copy [], .notify ttErr msgNoAnswer] := by
      simp [traceOf, capture_et_analyse, seqOracle, retryLoop, h1, h2, hts]
    refine ⟨?_, ?_, ?_, by decide, by decide, key3⟩ <;> simp [key, sleepsOf]
  · have key : traceOf (seqOracle [e1, e2] t) =
        [.notify nmGS msgAnalyse,
         .analyzeCall 1, .notify nmGS (retryMsg 1), .sleep 2,
         .analyzeCall 2, .notify nmGS (retryMsg 2), .sleep 4,
         .analyzeCall 3, .copy (pyStrip t),
         .copy (pyStrip t), .notify nmGS (pyStrip t), .sleep 2,
         .notify nmGS msgCopied] := by
      simp [traceOf, capture_et_analyse, seqOracle, retryLoop, h1, h2, hts]
    refine ⟨?_, ?_, ?_, by decide, by decide, key3⟩ <;> simp [key, sleepsOf]

/-- Witness for `backoff_schedule` with 503 errors and answer "42". -/
theorem backoff_schedule_witness :
    isRetryable "503".toList = true ∧
    sleepsOf (traceOf (seqOracle ["503".toList, "503".toList, "503".toList]
      "42".toList)) = [2, 4, 8] :=
  ⟨by decide,
    (backoff_schedule "503".toList "503".toList "503".toList "42".toList
      (by decide) (by decide) (by decide)).2.2.2.2.2⟩

/-- C9: a first-attempt analyzer error is followed by a retry exactly
when its text contains "503" or "UNAVAILABLE" (`isRetryable` is by
definition that substring test), and by the immediate raw-text error
notification exactly when it does not. -/
theorem retry_classification (e t : Chars) :
    isRetryable e =
      (isSubstringOf "503".toList e || isSubstringOf "UNAVAILABLE".toList e) ∧
    (Event.notify nmGS (retryMsg 1) ∈ traceOf (seqOracle [e] t) ↔
      isRetryable e = true) ∧
    (Event.notify ttErrGemini e ∈ traceOf (seqOracle [e] t) ↔
      isRetryable e = false) := by
  have d1 : ttErrGemini ≠ nmGS := by decide
  have d2 : nmGS ≠ ttErrGemini := by decide
  have d3 : ttErrGemini ≠ ttErr := by decide
  have d4 : retryMsg 1 ≠ msgAnalyse := by decide
  refine ⟨rfl, ?_, ?_⟩
  · cases hr : isRetryable e with
    | false =>
      have key : traceOf (seqOracle [e] t) =
          [.notify nmGS msgAnalyse, .analyzeCall 1, .notify ttErrGemini e] := by
        simp [traceOf, capture_et_analyse, seqOracle, retryLoop, hr]
      simp [key, d2, d4]
    | true =>
      by_cases hts : pyStrip t = []
      · have key : traceOf (seqOracle [e] t) =
            [.notify nmGS msgAnalyse,
             .analyzeCall 1, .notify nmGS (retryMsg 1), .sleep 2,
             .analyzeCall 2, .copy [], .notify ttErr msgNoAnswer] := by
          simp [traceOf, capture_et_analyse, seqOracle, retryLoop, hr, hts]
        simp [key]
      · have key : traceOf (seqOracle [e] t) =
            [.notify nmGS msgAnalyse,
             .analyzeCall 1, .notify nmGS (retryMsg 1), .sleep 2,
             .analyzeCall 2, .copy (pyStrip t),
             .copy (pyStrip t), .notify nmGS (pyStrip t), .sleep 2,
             .notify nmGS msgCopied] := by
          simp [traceOf, capture_et_analyse, seqOracle, retryLoop, hr, hts]
        simp [key]
  · cases hr : isRetryable e with
    | false =>
      have key : traceOf (seqOracle [e] t) =
          [.notify nmGS msgAnalyse, .analyzeCall 1, .notify ttErrGemini e] := by
        simp [traceOf, capture_et_analyse, seqOracle, retryLoop, hr]
      simp [key]
    | true =>
      by_cases hts : pyStrip t = []
      · have key : traceOf (seqOracle [e] t) =
            [.notify nmGS msgAnalyse,
             .analyzeCall 1, .notify nmGS (retryMsg 1), .sleep 2,
             .analyzeCall 2, .copy [], .notify ttErr msgNoAnswer] := by
          simp [traceOf, capture_et_analyse, seqOracle, retryLoop, hr, hts]
        simp [key, d1, d3]
      · have key : traceOf (seqOracle [e] t) =
            [.notify nmGS msgAnalyse,
             .analyzeCall 1, .notify nmGS (retryMsg 1), .sleep 2,
             .analyzeCall 2, .copy (pyStrip t),
             .copy (pyStrip t), .notify nmGS (pyStrip t), .sleep 2,
             .notify nmGS msgCopied] := by
          simp [traceOf, capture_et_analyse, seqOracle, retryLoop, hr, hts]
        simp [key, d1]

/-- C10: when the analyzer succeeds on the first attempt but the stripped
text is empty, the loop exits via its success break having already
written the empty string to the clipboard, and the run then takes the
no-answer failure path instead of the Succeeded path. -/
theorem empty_answer_failure (tRaw : Chars) (h : pyStrip tRaw = []) :
    capture_et_analyse (seqOracle [] tRaw) =
      ([.notify nmGS msgAnalyse, .analyzeCall 1, .copy [],
        .notify ttErr msgNoAnswer], .returned .failed) ∧
    copyWrites (traceOf (seqOracle [] tRaw)) = [[]] := by
  have key : capture_et_analyse (seqOracle [] tRaw) =
      ([.notify nmGS msgAnalyse, .analyzeCall 1, .copy [],
        .notify ttErr msgNoAnswer], .returned .failed) := by
    simp [capture_et_analyse, seqOracle, retryLoop, h]
  exact ⟨key, by simp [traceOf, key, copyWrites]⟩

/-- Witness for `empty_answer_failure` at a whitespace-only answer. -/
theorem empty_answer_failure_witness :
    pyStrip "  ".toList = [] ∧
    copyWrites (traceOf (seqOracle [] "  ".toList)) = [[]] :=
  ⟨by decide, (empty_answer_failure "  ".toList (by decide)).2⟩

/-- C1 (code bug): `log_gemini_response` is the response-log append the
spec describes, but `capture_et_analyse` never invokes it, so even two
successful runs (analyzer answering "Paris" on the first attempt) append
zero blocks to gemini_responses.log. -/
theorem response_log_never_written :
    resultOf (seqOracle [] "Paris".toList) = .returned .succeeded ∧
    log_gemini_response "Paris".toList = [Event.respLog "Paris".toList] ∧
    respLogCount (traceOf (seqOracle [] "Paris".toList) ++
      traceOf (seqOracle [] "Paris".toList)) = 0 := by
  decide
